import Mathlib

/-!
Verification of the `vinxi/ratelimit` middleware (`src/ratelimit.go`).

The middleware wraps an HTTP handler: on each request it evaluates exception
predicates (any match bypasses limiting), then filter predicates (any failure
bypasses limiting), and otherwise takes one token from a token bucket, sets the
two `X-RateLimit-*` headers, and dispatches to either the downstream handler or
the responder callback.

The response writer is embedded as explicit state recording the header map and
the ordered `WriteHeader` / `Write` calls.  Handlers and responders are
functions from writer state and request to writer state, mirroring the Go
signatures `ServeHTTP(w, r)` / `responder(w, r)`.  The token bucket comes from
the external `github.com/juju/ratelimit` dependency and is modelled from the
spec, with the clock abstracted away: every claim below concerns behaviour with
no elapsed time between operations, for which the refill step credits nothing.
-/

/-- State of an `http.ResponseWriter`: the header map plus the ordered log of
`WriteHeader` status calls and `Write` body chunks. -/
structure ResponseWriter where
  headers : List (String × String)
  statusWrites : List Nat
  bodyWrites : List String
deriving DecidableEq, Repr

/-- `w.Header().Set(k, v)`: replaces any existing values for the key. -/
def ResponseWriter.setHeader (w : ResponseWriter) (k v : String) : ResponseWriter :=
  { w with headers := (k, v) :: w.headers.filter (fun p => p.1 != k) }

/-- `w.WriteHeader(code)`. -/
def ResponseWriter.writeHeader (w : ResponseWriter) (code : Nat) : ResponseWriter :=
  { w with statusWrites := w.statusWrites ++ [code] }

/-- `w.Write([]byte(s))`. -/
def ResponseWriter.write (w : ResponseWriter) (s : String) : ResponseWriter :=
  { w with bodyWrites := w.bodyWrites ++ [s] }

/-- An `http.Handler` / `http.HandlerFunc`: receives the response writer and
the request, returns the updated writer state. -/
def Handler (ρ : Type) : Type := ResponseWriter → ρ → ResponseWriter

/-- Modelled from the spec: the token bucket of `github.com/juju/ratelimit`,
which is not under src/.  With no elapsed time between operations the lazy
refill credits nothing (rate-based: `floor(0 * rate) = 0` new tokens;
window-based: a zero elapsed interval is shorter than any positive window), so
the bucket state is its capacity and current token count. -/
structure Bucket where
  capacity : Int
  available : Int
deriving DecidableEq, Repr

/-- Modelled from the spec: `takeAvailable(n)` of the external bucket removes
`min(n, available)` tokens and returns the number actually removed; it never
returns a negative value and returns 0 when the bucket is empty. -/
def Bucket.takeAvailable (b : Bucket) (n : Int) : Int × Bucket :=
  if n ≤ 0 then (0, b)
  else if b.available ≤ 0 then (0, b)
  else
    let take := min n b.available
    (take, { b with available := b.available - take })

/-- Refill policy variants from the spec.  The rate is compared only against
zero at construction, so it is embedded as a rational. -/
inductive RefillPolicy where
  | ratePerSecond (rate : ℚ)
  | windowBased (window : Int)
deriving DecidableEq

/-- The construction-time error taxonomy of the spec. -/
inductive ConfigError where
  | invalidConfig
deriving DecidableEq, Repr

/-- Modelled from the spec: `TokenBucket.new(policy, capacity)` of the external
bucket fails with `InvalidConfig` if capacity ≤ 0, or rate ≤ 0 for
`RatePerSecond`, or window ≤ 0 for `WindowBased`; otherwise the bucket starts
full (`available = capacity`). -/
def Bucket.new (policy : RefillPolicy) (capacity : Int) : Except ConfigError Bucket :=
  if capacity ≤ 0 then .error .invalidConfig
  else
    match policy with
    | .ratePerSecond rate =>
        if rate ≤ 0 then .error .invalidConfig else .ok ⟨capacity, capacity⟩
    | .windowBased window =>
        if window ≤ 0 then .error .invalidConfig else .ok ⟨capacity, capacity⟩

/-- `RateLimitResponder` (src/ratelimit.go lines 23-26): the default responder,
writing status 429 and the body "Too Many Requests". -/
def RateLimitResponder {ρ : Type} : Handler ρ :=
  fun w _ => (w.writeHeader 429).write "Too Many Requests"

/-- `Limiter` (src/ratelimit.go lines 30-39). -/
structure Limiter (ρ : Type) where
  bucket : Bucket
  responder : Handler ρ
  filters : List (ρ → Bool)
  exceptions : List (ρ → Bool)

/-- `NewTimeLimiter` (src/ratelimit.go lines 42-47); the bucket construction it
delegates to is external, so its validation is the spec-modelled `Bucket.new`
with the window-based policy. -/
def NewTimeLimiter (ρ : Type) (timeWindow : Int) (capacity : Int) :
    Except ConfigError (Limiter ρ) :=
  (Bucket.new (.windowBased timeWindow) capacity).map fun b =>
    { responder := RateLimitResponder
      bucket := b
      filters := []
      exceptions := [] }

/-- `NewRateLimiter` (src/ratelimit.go lines 51-56); the bucket construction it
delegates to is external, so its validation is the spec-modelled `Bucket.new`
with the rate-based policy. -/
def NewRateLimiter (ρ : Type) (rate : ℚ) (capacity : Int) :
    Except ConfigError (Limiter ρ) :=
  (Bucket.new (.ratePerSecond rate) capacity).map fun b =>
    { responder := RateLimitResponder
      bucket := b
      filters := []
      exceptions := [] }

/-- `SetResponder` (src/ratelimit.go lines 59-61). -/
def Limiter.SetResponder {ρ : Type} (l : Limiter ρ) (fn : Handler ρ) : Limiter ρ :=
  { l with responder := fn }

/-- `Filter` (src/ratelimit.go lines 65-67): appends whitelist filters. -/
def Limiter.Filter {ρ : Type} (l : Limiter ρ) (fn : List (ρ → Bool)) : Limiter ρ :=
  { l with filters := l.filters ++ fn }

/-- `Exception` (src/ratelimit.go lines 71-73): appends whitelist exceptions. -/
def Limiter.Exception {ρ : Type} (l : Limiter ρ) (fn : List (ρ → Bool)) : Limiter ρ :=
  { l with exceptions := l.exceptions ++ fn }

/-- `capacity` (src/ratelimit.go lines 127-129). -/
def Limiter.capacity {ρ : Type} (l : Limiter ρ) : Int :=
  l.bucket.capacity

/-- `remaining` (src/ratelimit.go lines 132-137). -/
def Limiter.remaining {ρ : Type} (l : Limiter ρ) : Int :=
  if l.bucket.available > 0 then l.bucket.available else 0

/-- `limit` (src/ratelimit.go lines 109-124).  The Go method mutates the
bucket through the limiter pointer, so the updated limiter is returned
alongside the writer: `TakeAvailable(1)` runs first, then `capacity()` and
`remaining()` read the post-take bucket for the two headers, then the request
is dispatched to the responder on zero tokens and to `h` otherwise. -/
def Limiter.limit {ρ : Type} (l : Limiter ρ) (w : ResponseWriter) (r : ρ)
    (h : Handler ρ) : ResponseWriter × Limiter ρ :=
  let res := l.bucket.takeAvailable 1
  let available := res.1
  let l1 : Limiter ρ := { l with bucket := res.2 }
  let w1 := w.setHeader "X-RateLimit-Limit" (toString l1.capacity)
  let w2 := w1.setHeader "X-RateLimit-Remaining" (toString l1.remaining)
  if available = 0 then (l1.responder w2 r, l1)
  else (h w2 r, l1)

/-- `LimitHTTP` (src/ratelimit.go lines 83-105): any matching exception
bypasses straight to `h`; then any failing filter bypasses straight to `h`;
otherwise the rate limiter is applied. -/
def Limiter.limitHTTP {ρ : Type} (l : Limiter ρ) (h : Handler ρ)
    (w : ResponseWriter) (r : ρ) : ResponseWriter × Limiter ρ :=
  if l.exceptions.any (fun e => e r) then (h w r, l)
  else if l.filters.any (fun f => !(f r)) then (h w r, l)
  else l.limit w r h

/-- Runs a sequence of `takeAvailable` calls back to back (no elapsed time),
returning the list of token counts actually taken and the final bucket. -/
def Bucket.runTakes (b : Bucket) : List Int → List Int × Bucket
  | [] => ([], b)
  | n :: ns =>
    let res := b.takeAvailable n
    let rest := res.2.runTakes ns
    (res.1 :: rest.1, rest.2)

/-- The writer state passed to the dispatched handler on the bucket path: both
`X-RateLimit-*` headers set, computed from the post-take bucket as the code
does. -/
def headersFor {ρ : Type} (l : Limiter ρ) (w : ResponseWriter) : ResponseWriter :=
  let l1 : Limiter ρ := { l with bucket := (l.bucket.takeAvailable 1).2 }
  (w.setHeader "X-RateLimit-Limit" (toString l1.capacity)).setHeader
    "X-RateLimit-Remaining" (toString l1.remaining)

theorem Bucket.takeAvailable_one (b : Bucket) :
    b.takeAvailable 1 =
      if b.available ≤ 0 then (0, b) else (1, ⟨b.capacity, b.available - 1⟩) := by
  unfold Bucket.takeAvailable
  have h1 : ¬ ((1 : Int) ≤ 0) := by omega
  simp only [if_neg h1]
  split
  · rfl
  · next hpos =>
    have hmin : min 1 b.available = 1 := min_eq_left (by omega)
    simp [hmin]

theorem Bucket.takeAvailable_spec (b : Bucket) (n : Int) :
    0 ≤ (b.takeAvailable n).1
    ∧ (b.takeAvailable n).2.available = b.available - (b.takeAvailable n).1
    ∧ (b.takeAvailable n).2.capacity = b.capacity
    ∧ (0 ≤ b.available → (b.takeAvailable n).1 ≤ b.available) := by
  unfold Bucket.takeAvailable
  split
  · simp
  · split
    · simp
    · next hn havail =>
      refine ⟨?va, by simp, rfl, ?vb⟩
      · simp only
        omega
      · intro _
        simp only
        omega

theorem Bucket.runTakes_sum (ns : List Int) (b : Bucket) (hb : 0 ≤ b.available) :
    (b.runTakes ns).1.sum ≤ b.available := by
  induction ns generalizing b with
  | nil => simpa [Bucket.runTakes] using hb
  | cons n ns ih =>
    obtain ⟨h0, heq, _, hle⟩ := Bucket.takeAvailable_spec b n
    have hb1 : 0 ≤ (b.takeAvailable n).2.available := by
      rw [heq]; have := hle hb; omega
    have hrest := ih (b.takeAvailable n).2 hb1
    simp only [Bucket.runTakes, List.sum_cons]
    rw [heq] at hrest
    omega

theorem Bucket.new_ok (policy : RefillPolicy) (capacity : Int) (b : Bucket)
    (h : Bucket.new policy capacity = .ok b) :
    b = ⟨capacity, capacity⟩ ∧ 0 < capacity := by
  unfold Bucket.new at h
  split at h
  · cases h
  · next hcap =>
    cases policy with
    | ratePerSecond rate =>
      simp only at h
      split at h
      · cases h
      · cases h; exact ⟨rfl, by omega⟩
    | windowBased window =>
      simp only at h
      split at h
      · cases h
      · cases h; exact ⟨rfl, by omega⟩

theorem limitHTTP_eval {ρ : Type} (l : Limiter ρ) (h : Handler ρ)
    (w : ResponseWriter) (r : ρ)
    (hexc : l.exceptions.any (fun e => e r) = false)
    (hfil : l.filters.all (fun f => f r) = true) :
    l.limitHTTP h w r =
      (if (l.bucket.takeAvailable 1).1 = 0
        then l.responder (headersFor l w) r
        else h (headersFor l w) r,
       { l with bucket := (l.bucket.takeAvailable 1).2 }) := by
  have hfil2 : l.filters.any (fun f => !(f r)) = false := by
    rw [List.any_eq_false]
    intro f hf
    have hft := List.all_eq_true.mp hfil f hf
    simp [hft]
  unfold Limiter.limitHTTP Limiter.limit
  rw [hexc, hfil2]
  by_cases hz : (l.bucket.takeAvailable 1).1 = 0
  · simp [hz, headersFor]
  · simp [hz, headersFor]

/-- C1: for every request that reaches the bucket step (no exception matched
and every filter matched), the gate calls `takeAvailable(1)` and dispatches on
its result: on a zero take the decision is Deny — the outcome is the
responder applied to the headered writer (the downstream handler is not
invoked) — and on a nonzero take the outcome is the downstream handler
applied to the headered writer (the responder is not invoked); the limiter
keeps the post-take bucket. -/
theorem c1_bucket_step_dispatch {ρ : Type} (l : Limiter ρ) (h : Handler ρ)
    (w : ResponseWriter) (r : ρ)
    (hexc : l.exceptions.any (fun e => e r) = false)
    (hfil : l.filters.all (fun f => f r) = true) :
    l.limitHTTP h w r =
      (if (l.bucket.takeAvailable 1).1 = 0
        then l.responder (headersFor l w) r
        else h (headersFor l w) r,
       { l with bucket := (l.bucket.takeAvailable 1).2 }) :=
  limitHTTP_eval l h w r hexc hfil

/-- C2: if any exception predicate matches the request, the gate forwards
immediately: the downstream handler runs on the original writer (so neither
`X-RateLimit-*` header was set), and the limiter — hence the bucket — is
returned unchanged (no token consumed). -/
theorem c2_exception_bypass {ρ : Type} (l : Limiter ρ) (h : Handler ρ)
    (w : ResponseWriter) (r : ρ)
    (hexc : l.exceptions.any (fun e => e r) = true) :
    l.limitHTTP h w r = (h w r, l) := by
  unfold Limiter.limitHTTP
  rw [hexc]
  simp

/-- C3: if no exception matches and some filter predicate returns false, the
gate forwards immediately: the downstream handler runs on the original writer
(no headers set) and the limiter — hence the bucket — is returned unchanged
(no token consumed). -/
theorem c3_filter_bypass {ρ : Type} (l : Limiter ρ) (h : Handler ρ)
    (w : ResponseWriter) (r : ρ)
    (hexc : l.exceptions.any (fun e => e r) = false)
    (hfil : l.filters.all (fun f => f r) = false) :
    l.limitHTTP h w r = (h w r, l) := by
  have hfil2 : l.filters.any (fun f => !(f r)) = true := by
    rw [List.any_eq_true]
    obtain ⟨f, hf, hff⟩ := List.all_eq_false.mp hfil
    exact ⟨f, hf, by simp_all⟩
  unfold Limiter.limitHTTP
  rw [hexc, hfil2]
  simp

theorem lookup_rate_headers (w : ResponseWriter) (v1 v2 : String) :
    (((w.setHeader "X-RateLimit-Limit" v1).setHeader
        "X-RateLimit-Remaining" v2).headers.lookup "X-RateLimit-Limit" = some v1)
    ∧ (((w.setHeader "X-RateLimit-Limit" v1).setHeader
        "X-RateLimit-Remaining" v2).headers.lookup "X-RateLimit-Remaining" = some v2) := by
  constructor
  · rfl
  · rfl

/-- C4: on every request that is evaluated (not bypassed), whatever the
outcome, the writer handed to the dispatched callback carries
`X-RateLimit-Limit = bucket capacity` and
`X-RateLimit-Remaining = max(0, post-take available)`, both as decimal
integer strings; on a bypassed request the handler receives the original
writer, so neither header is set. -/
theorem c4_headers {ρ : Type} (l : Limiter ρ) (h : Handler ρ)
    (w : ResponseWriter) (r : ρ) :
    ((l.exceptions.any (fun e => e r) = false ∧ l.filters.all (fun f => f r) = true) →
      ((headersFor l w).headers.lookup "X-RateLimit-Limit"
          = some (toString l.bucket.capacity)
        ∧ (headersFor l w).headers.lookup "X-RateLimit-Remaining"
          = some (toString (max 0 (l.bucket.takeAvailable 1).2.available))
        ∧ (l.limitHTTP h w r).1
          = (if (l.bucket.takeAvailable 1).1 = 0
              then l.responder (headersFor l w) r
              else h (headersFor l w) r)))
    ∧ ((l.exceptions.any (fun e => e r) = true ∨ l.filters.all (fun f => f r) = false) →
      l.limitHTTP h w r = (h w r, l)) := by
  constructor
  · rintro ⟨hexc, hfil⟩
    have hcap : (l.bucket.takeAvailable 1).2.capacity = l.bucket.capacity :=
      (Bucket.takeAvailable_spec l.bucket 1).2.2.1
    have hrem : (Limiter.remaining { l with bucket := (l.bucket.takeAvailable 1).2 })
        = max 0 (l.bucket.takeAvailable 1).2.available := by
      unfold Limiter.remaining
      rcases lt_or_le 0 (l.bucket.takeAvailable 1).2.available with hx | hx
      · rw [if_pos hx, max_eq_right (le_of_lt hx)]
      · rw [if_neg (not_lt.mpr hx), max_eq_left hx]
    refine ⟨?ha, ?hb, ?hc⟩
    · have := (lookup_rate_headers w
        (toString (Limiter.capacity { l with bucket := (l.bucket.takeAvailable 1).2 }))
        (toString (Limiter.remaining { l with bucket := (l.bucket.takeAvailable 1).2 }))).1
      unfold headersFor
      simpa [Limiter.capacity, hcap] using this
    · have := (lookup_rate_headers w
        (toString (Limiter.capacity { l with bucket := (l.bucket.takeAvailable 1).2 }))
        (toString (Limiter.remaining { l with bucket := (l.bucket.takeAvailable 1).2 }))).2
      unfold headersFor
      simpa [hrem] using this
    · rw [limitHTTP_eval l h w r hexc hfil]
  · intro hby
    cases hby with
    | inl hexc =>
      unfold Limiter.limitHTTP
      rw [hexc]
      simp
    | inr hfil =>
      have hfil2 : l.filters.any (fun f => !(f r)) = true := by
        rw [List.any_eq_true]
        obtain ⟨f, hf, hff⟩ := List.all_eq_false.mp hfil
        exact ⟨f, hf, by simp_all⟩
      unfold Limiter.limitHTTP
      by_cases hexc : l.exceptions.any (fun e => e r)
      · rw [hexc]; simp
      · simp only [hexc]
        rw [hfil2]
        simp

/-- C5: constructing a limiter with capacity ≤ 0, or rate ≤ 0 for the
rate-based policy, or window ≤ 0 for the window-based policy, fails with
`InvalidConfig` (and only then); on valid parameters the constructor returns a
fully formed limiter with a full bucket, the default responder, and empty
filter and exception lists — never a partial or degraded value. -/
theorem c5_construction (ρ : Type) (timeWindow capacity : Int) (rate : ℚ) :
    ((capacity ≤ 0 ∨ timeWindow ≤ 0) ↔
      NewTimeLimiter ρ timeWindow capacity = .error .invalidConfig)
    ∧ ((capacity ≤ 0 ∨ rate ≤ 0) ↔
      NewRateLimiter ρ rate capacity = .error .invalidConfig)
    ∧ (0 < capacity → 0 < timeWindow →
      NewTimeLimiter ρ timeWindow capacity =
        .ok { responder := RateLimitResponder, bucket := ⟨capacity, capacity⟩,
              filters := [], exceptions := [] })
    ∧ (0 < capacity → 0 < rate →
      NewRateLimiter ρ rate capacity =
        .ok { responder := RateLimitResponder, bucket := ⟨capacity, capacity⟩,
              filters := [], exceptions := [] }) := by
  refine ⟨?ta, ?tb, ?tc, ?td⟩
  · unfold NewTimeLimiter Bucket.new
    by_cases hcap : capacity ≤ 0
    · simp [hcap, Except.map]
    · simp only [hcap, if_false]
      by_cases hwin : timeWindow ≤ 0
      · simp [hwin, Except.map]
      · simp [hwin, hcap, Except.map]
  · unfold NewRateLimiter Bucket.new
    by_cases hcap : capacity ≤ 0
    · simp [hcap, Except.map]
    · simp only [hcap, if_false]
      by_cases hrate : rate ≤ 0
      · simp [hrate, Except.map]
      · simp [hrate, hcap, Except.map]
  · intro hcap hwin
    unfold NewTimeLimiter Bucket.new
    simp [not_le.mpr hcap, not_le.mpr hwin, Except.map]
  · intro hcap hrate
    unfold NewRateLimiter Bucket.new
    simp [not_le.mpr hcap, not_le.mpr hrate, Except.map]

/-- C6: when the limiter's responder is the default `RateLimitResponder` (no
custom responder set), the deny path — request evaluated, zero tokens taken —
writes HTTP status 429 and the plain-text body "Too Many Requests" to the
response sink. -/
theorem c6_default_deny {ρ : Type} (l : Limiter ρ) (h : Handler ρ)
    (w : ResponseWriter) (r : ρ)
    (hresp : l.responder = RateLimitResponder)
    (hexc : l.exceptions.any (fun e => e r) = false)
    (hfil : l.filters.all (fun f => f r) = true)
    (hzero : (l.bucket.takeAvailable 1).1 = 0) :
    (l.limitHTTP h w r).1.statusWrites = w.statusWrites ++ [429]
    ∧ (l.limitHTTP h w r).1.bodyWrites = w.bodyWrites ++ ["Too Many Requests"] := by
  rw [limitHTTP_eval l h w r hexc hfil]
  simp only [hzero, if_pos, hresp]
  constructor
  · rfl
  · rfl

/-- C7: every call to the returned handler changes the bucket's token count by
exactly 0 or exactly 1 (a single un-retried `takeAvailable(1)` at most), never
changes the bucket's capacity, and leaves the responder, filter list and
exception list untouched. -/
theorem c7_consume_zero_or_one {ρ : Type} (l : Limiter ρ) (h : Handler ρ)
    (w : ResponseWriter) (r : ρ) :
    (l.limitHTTP h w r).2.bucket.capacity = l.bucket.capacity
    ∧ ((l.limitHTTP h w r).2.bucket.available = l.bucket.available
        ∨ (l.limitHTTP h w r).2.bucket.available = l.bucket.available - 1)
    ∧ (l.limitHTTP h w r).2.responder = l.responder
    ∧ (l.limitHTTP h w r).2.filters = l.filters
    ∧ (l.limitHTTP h w r).2.exceptions = l.exceptions := by
  unfold Limiter.limitHTTP Limiter.limit
  split
  · simp
  · split
    · simp
    · rw [Bucket.takeAvailable_one]
      by_cases hb : l.bucket.available ≤ 0
      · simp [hb]
      · simp [hb]

/-- C8: for every valid construction (capacity > 0) and every finite sequence
of `takeAvailable` calls with no elapsed time between them on the freshly
constructed (full) bucket, the sum of the token counts actually taken never
exceeds the capacity. -/
theorem c8_takes_bounded (policy : RefillPolicy) (capacity : Int) (b : Bucket)
    (ns : List Int) (hb : Bucket.new policy capacity = .ok b) :
    (b.runTakes ns).1.sum ≤ capacity := by
  obtain ⟨hb1, hcap⟩ := Bucket.new_ok policy capacity b hb
  subst hb1
  have hnn : (0 : Int) ≤ (Bucket.mk capacity capacity).available := le_of_lt hcap
  simpa using Bucket.runTakes_sum ns ⟨capacity, capacity⟩ hnn

/-- C9: the responder a limiter uses is the default `RateLimitResponder`
injected at construction, or the one later installed on that instance via
`SetResponder`; `SetResponder` replaces only the responder field of the
limiter value it is applied to, leaving its bucket, filters and exceptions
intact — and, limiters being separate values, it touches no other instance. -/
theorem c9_responder_per_instance {ρ : Type} (timeWindow capacity : Int)
    (rate : ℚ) (l la : Limiter ρ) (f : Handler ρ)
    (hl : NewTimeLimiter ρ timeWindow capacity = .ok l
        ∨ NewRateLimiter ρ rate capacity = .ok l) :
    l.responder = RateLimitResponder
    ∧ (la.SetResponder f).responder = f
    ∧ (la.SetResponder f).bucket = la.bucket
    ∧ (la.SetResponder f).filters = la.filters
    ∧ (la.SetResponder f).exceptions = la.exceptions := by
  refine ⟨?hr, rfl, rfl, rfl, rfl⟩
  cases hl with
  | inl hT =>
    unfold NewTimeLimiter at hT
    cases hB : Bucket.new (.windowBased timeWindow) capacity with
    | error e => rw [hB] at hT; cases hT
    | ok b =>
      rw [hB] at hT
      cases hT
      rfl
  | inr hR =>
    unfold NewRateLimiter at hR
    cases hB : Bucket.new (.ratePerSecond rate) capacity with
    | error e => rw [hB] at hR; cases hR
    | ok b =>
      rw [hB] at hR
      cases hR
      rfl

/-- C10: on every request, every control path of the returned handler —
exception bypass, filter bypass, token granted, token denied — dispatches to
exactly one of the downstream handler and the responder callback, exactly
once: with a downstream handler writing the marker "DOWNSTREAM" and the
instance responder writing the marker "RESPONDER", the body log grows by
precisely one marker. -/
theorem c10_exactly_one_dispatch {ρ : Type} (l : Limiter ρ)
    (w : ResponseWriter) (r : ρ) :
    (((l.SetResponder fun wr _ => wr.write "RESPONDER").limitHTTP
        (fun wr _ => wr.write "DOWNSTREAM") w r).1.bodyWrites
      = w.bodyWrites ++ ["DOWNSTREAM"])
    ∨ (((l.SetResponder fun wr _ => wr.write "RESPONDER").limitHTTP
        (fun wr _ => wr.write "DOWNSTREAM") w r).1.bodyWrites
      = w.bodyWrites ++ ["RESPONDER"]) := by
  unfold Limiter.limitHTTP Limiter.limit Limiter.SetResponder
  split
  · left; rfl
  · split
    · left; rfl
    · simp only [Bucket.takeAvailable_one]
      by_cases hb : l.bucket.available ≤ 0
      · right
        simp [hb, ResponseWriter.write, ResponseWriter.setHeader]
      · left
        simp [hb, ResponseWriter.write, ResponseWriter.setHeader]

/-- An empty response writer, used as concrete input by the witnesses. -/
def emptyWriter : ResponseWriter := ⟨[], [], []⟩

/-- A concrete downstream handler writing a marker body. -/
def downHandler : Handler Nat := fun w _ => w.write "DOWNSTREAM"

/-- A fresh limiter over `Nat` requests with capacity 2, no filters or
exceptions. -/
def limFull : Limiter Nat :=
  { bucket := ⟨2, 2⟩, responder := RateLimitResponder, filters := [], exceptions := [] }

/-- A drained limiter: capacity 1, zero tokens available. -/
def limEmpty : Limiter Nat :=
  { bucket := ⟨1, 0⟩, responder := RateLimitResponder, filters := [], exceptions := [] }

/-- A limiter with an always-matching exception. -/
def limExc : Limiter Nat :=
  { bucket := ⟨2, 2⟩, responder := RateLimitResponder, filters := [],
    exceptions := [fun _ => true] }

/-- A limiter with an always-failing filter. -/
def limFil : Limiter Nat :=
  { bucket := ⟨2, 2⟩, responder := RateLimitResponder, filters := [fun _ => false],
    exceptions := [] }

theorem c1_bucket_step_dispatch_witness :
    limFull.limitHTTP downHandler emptyWriter 0 =
      (if (limFull.bucket.takeAvailable 1).1 = 0
        then limFull.responder (headersFor limFull emptyWriter) 0
        else downHandler (headersFor limFull emptyWriter) 0,
       { limFull with bucket := (limFull.bucket.takeAvailable 1).2 }) :=
  c1_bucket_step_dispatch limFull downHandler emptyWriter 0 rfl rfl

theorem c2_exception_bypass_witness :
    limExc.limitHTTP downHandler emptyWriter 0 = (downHandler emptyWriter 0, limExc) :=
  c2_exception_bypass limExc downHandler emptyWriter 0 rfl

theorem c3_filter_bypass_witness :
    limFil.limitHTTP downHandler emptyWriter 0 = (downHandler emptyWriter 0, limFil) :=
  c3_filter_bypass limFil downHandler emptyWriter 0 rfl rfl

theorem c4_headers_witness :
    (headersFor limFull emptyWriter).headers.lookup "X-RateLimit-Limit"
        = some (toString limFull.bucket.capacity)
    ∧ (headersFor limFull emptyWriter).headers.lookup "X-RateLimit-Remaining"
        = some (toString (max 0 (limFull.bucket.takeAvailable 1).2.available))
    ∧ (limFull.limitHTTP downHandler emptyWriter 0).1
        = (if (limFull.bucket.takeAvailable 1).1 = 0
            then limFull.responder (headersFor limFull emptyWriter) 0
            else downHandler (headersFor limFull emptyWriter) 0) :=
  (c4_headers limFull downHandler emptyWriter 0).1 ⟨rfl, rfl⟩

theorem c5_construction_witness :
    NewTimeLimiter Nat 60 0 = .error .invalidConfig
    ∧ NewTimeLimiter Nat 60 5 =
        .ok { responder := RateLimitResponder, bucket := ⟨5, 5⟩,
              filters := [], exceptions := [] } :=
  ⟨(c5_construction Nat 60 0 1).1.mp (Or.inl (by norm_num)),
   (c5_construction Nat 60 5 1).2.2.1 (by norm_num) (by norm_num)⟩

theorem c6_default_deny_witness :
    (limEmpty.limitHTTP downHandler emptyWriter 0).1.statusWrites
        = emptyWriter.statusWrites ++ [429]
    ∧ (limEmpty.limitHTTP downHandler emptyWriter 0).1.bodyWrites
        = emptyWriter.bodyWrites ++ ["Too Many Requests"] :=
  c6_default_deny limEmpty downHandler emptyWriter 0 rfl rfl rfl rfl

theorem c8_takes_bounded_witness :
    ((Bucket.mk 2 2).runTakes [1, 1, 1]).1.sum ≤ 2 :=
  c8_takes_bounded (.windowBased 60) 2 ⟨2, 2⟩ [1, 1, 1] rfl

theorem c9_responder_per_instance_witness :
    limFull.responder = RateLimitResponder
    ∧ (limEmpty.SetResponder downHandler).responder = downHandler
    ∧ (limEmpty.SetResponder downHandler).bucket = limEmpty.bucket
    ∧ (limEmpty.SetResponder downHandler).filters = limEmpty.filters
    ∧ (limEmpty.SetResponder downHandler).exceptions = limEmpty.exceptions :=
  c9_responder_per_instance 60 2 1 limFull limEmpty downHandler (Or.inl rfl)
